import Mathlib

/-
Verification of the dustr disk-usage aggregation core and its Python
wrapper layer.

The repository ships a thin Python wrapper (src/python/dustr/__init__.py)
around a compiled backend exposing two operations,
`calculate_directory_sizes` (the aggregator) and
`get_file_type_indicator` (the entry classifier).  The backend's source
is not part of the visible repository, so the aggregator and classifier
are modelled here from the specification; the Python wrapper
(`calculate_file_sizes`) is embedded directly from its source.
-/

namespace Dustr

/-- Modelled from the spec: the unit mode of a scan, fixed for the whole
traversal — either cumulative byte size reported in kilobytes, or
cumulative inode count (spec section 3, UnitMode). -/
inductive UnitMode where
  | BYTES_AS_KB : UnitMode
  | INODES : UnitMode
deriving DecidableEq, Repr

/-- Modelled from the spec: the underlying cause of a localized
filesystem failure during the walk (spec section 7 error taxonomy:
permission denial, a vanished entry, or any other cause). -/
inductive FailCause where
  | permissionDenied : FailCause
  | vanished : FailCause
  | otherFail (msg : String) : FailCause
deriving DecidableEq, Repr

/-- Modelled from the spec: the human-readable message produced at the
point of failure; permission denial is distinguished literally so the
report layer can flag it (spec section 4.1 error policy). -/
def causeMessage : FailCause → String
  | .permissionDenied => "Permission denied"
  | .vanished => "No such file or directory"
  | .otherFail msg => msg

/-- Modelled from the spec: a node of the filesystem tree as seen by the
walker.  Regular files carry their byte size; directories carry their
named entries; symbolic links carry their own link-metadata byte size
and a target (which the walker must never follow); exotic entries
(devices, sockets, FIFOs) are leaves with a reported metadata size.  A
directory whose listing fails and an entry whose metadata lookup fails
are represented explicitly with their failure cause (spec sections 3
and 4.1). -/
inductive FSEntry where
  | file (size : Nat) : FSEntry
  | dir (entries : List (String × FSEntry)) : FSEntry
  | symlink (linkSize : Nat) (target : FSEntry) : FSEntry
  | exotic (size : Nat) : FSEntry
  | unlistableDir (cause : FailCause) : FSEntry
  | statFails (cause : FailCause) : FSEntry

/-- Modelled from the spec: a leaf's contribution — `floor(size / 1024)`
in BYTES_AS_KB mode (truncating division per file before summation),
exactly 1 in INODES mode (spec section 4.1 numeric semantics). -/
def leafMetric : UnitMode → Nat → Nat
  | .BYTES_AS_KB, s => s / 1024
  | .INODES, _ => 1

/-- Modelled from the spec: a directory's own contribution — 0 in
BYTES_AS_KB mode (directories contribute no self-size), 1 in INODES
mode (the directory itself) (spec section 4.1). -/
def dirSelfMetric : UnitMode → Nat
  | .BYTES_AS_KB => 0
  | .INODES => 1

mutual

/-- Modelled from the spec: the aggregated metric of one entry under a
unit mode.  Files, symlinks and exotic entries are leaves; a symlink's
target is never inspected; directories add their self-contribution plus
the recursive sum over their entries; a subtree whose listing or
metadata lookup failed contributes 0 (spec section 4.1). -/
def entryMetric (m : UnitMode) : FSEntry → Nat
  | .file s => leafMetric m s
  | .dir es => dirSelfMetric m + entriesMetric m es
  | .symlink s _ => leafMetric m s
  | .exotic s => leafMetric m s
  | .unlistableDir _ => 0
  | .statFails _ => 0

/-- Modelled from the spec: the sum of the metrics of a list of named
directory entries. -/
def entriesMetric (m : UnitMode) : List (String × FSEntry) → Nat
  | [] => 0
  | (_, e) :: rest => entryMetric m e + entriesMetric m rest

end

mutual

/-- Modelled from the spec: the first failure message found in an
entry's subtree in depth-first order, if any.  Multiple nested failures
under one top-level child collapse to one error entry with the
first-seen message (spec section 4.1 error policy). -/
def firstError : FSEntry → Option String
  | .file _ => none
  | .dir es => firstErrorList es
  | .symlink _ _ => none
  | .exotic _ => none
  | .unlistableDir c => some (causeMessage c)
  | .statFails c => some (causeMessage c)

/-- Modelled from the spec: the first failure message among a list of
named entries, scanning left to right. -/
def firstErrorList : List (String × FSEntry) → Option String
  | [] => none
  | (_, e) :: rest =>
    match firstError e with
    | some msg => some msg
    | none => firstErrorList rest

end

/-- Modelled from the spec: a direct child is measurable exactly when
the child node itself could be read; a child whose own listing or
metadata lookup failed is entirely unreadable and appears only in the
error map (spec section 4.1 composing guarantee). -/
def entryReadable : FSEntry → Bool
  | .unlistableDir _ => false
  | .statFails _ => false
  | _ => true

/-- Modelled from the spec: the scan root as handed to the aggregator —
either a listable directory with its direct children, or one of the
fatal root conditions: missing, not a directory, or permission denied
(spec section 4.1 preconditions). -/
inductive ScanRoot where
  | okDir (entries : List (String × FSEntry)) : ScanRoot
  | missing : ScanRoot
  | notADirectory : ScanRoot
  | rootPermissionDenied : ScanRoot

/-- Whether the scan root can be opened and listed. -/
def ScanRoot.isOk : ScanRoot → Bool
  | .okDir _ => true
  | _ => false

/-- Modelled from the spec: the sentinel key under which a fatal
root-level error is recorded. -/
def rootSentinel : String := "<root>"

/-- Modelled from the spec: `aggregate(root, mode)` — on a listable
root, one metric per measurable direct child and one error entry (keyed
by the top-level child, first-seen message) per direct child whose
subtree had a failure; on an unopenable root, an empty metric map and a
single error under the root sentinel key (spec section 4.1). -/
def aggregate (root : ScanRoot) (mode : UnitMode) :
    List (String × Nat) × List (String × String) :=
  match root with
  | .okDir es =>
      (es.filterMap (fun p =>
          if entryReadable p.2 then some (p.1, entryMetric mode p.2) else none),
       es.filterMap (fun p => (firstError p.2).map (fun msg => (p.1, msg))))
  | .missing => ([], [(rootSentinel, "Directory not found")])
  | .notADirectory => ([], [(rootSentinel, "Not a directory")])
  | .rootPermissionDenied => ([], [(rootSentinel, "Permission denied")])

/-- Nests an entry below the given number of singleton directories;
used to state depth-independence of a file's contribution. -/
def buryAt : Nat → FSEntry → FSEntry
  | 0, e => e
  | d + 1, e => .dir [("sub", buryAt d e)]

/-- Modelled from the spec: `get_file_type_indicator(path)` — a single
non-following metadata lookup returning `"@"` for a symbolic link
(checked before the directory case, since a symlink may point to a
directory and must still show `@`), `"/"` for a directory, `""`
otherwise; it fails with a lookup error when the path's metadata cannot
be read (spec section 4.2). -/
def get_file_type_indicator : FSEntry → Except String String
  | .statFails c => .error (causeMessage c)
  | .symlink _ _ => .ok "@"
  | .dir _ => .ok "/"
  | .unlistableDir _ => .ok "/"
  | .file _ => .ok ""
  | .exotic _ => .ok ""

/-
Embedding of the Python wrapper `calculate_file_sizes` from
src/python/dustr/__init__.py (lines 66-99).  The backend call
`calculate_directory_sizes(dirname, args.inodes)` either returns a dict
of raw sizes (modelled as an association list in iteration order) or
raises; the indicator lookup `get_file_type_indicator(full_path)` is a
per-filename oracle that may fail.
-/

/-- An exception raised by the size backend, as discriminated by the
wrapper's `except` clauses: `PermissionError`, `FileNotFoundError`, or
any other `Exception`, each carrying its string form. -/
inductive BackendExc where
  | permissionExc (msg : String) : BackendExc
  | fileNotFoundExc (msg : String) : BackendExc
  | otherExc (msg : String) : BackendExc
deriving DecidableEq, Repr

/-- Python dict assignment `d[k] = v` on an association list: if the key
is present its value is replaced in place, otherwise the pair is
appended (dicts preserve insertion order). -/
def dictInsert (d : List (String × Nat)) (k : String) (v : Nat) :
    List (String × Nat) :=
  if d.any (fun p => p.1 == k) then
    d.map (fun p => if p.1 == k then (k, v) else p)
  else d ++ [(k, v)]

/-- Stable insertion of a pair into a list sorted by ascending value,
placing it after existing pairs of equal value (matching the stability
of Python's `sorted` with `key=lambda x: x[1]`). -/
def insertBySize (p : String × Nat) : List (String × Nat) → List (String × Nat)
  | [] => [p]
  | q :: rest => if q.2 ≤ p.2 then q :: insertBySize p rest else p :: q :: rest

/-- Stable sort of an association list by ascending value, embedding
`OrderedDict(sorted(file_sizes.items(), key=lambda x: x[1]))`. -/
def sortBySize (d : List (String × Nat)) : List (String × Nat) :=
  d.foldl (fun acc p => insertBySize p acc) []

/-- The display name computed for one backend filename: the bare
filename under `--noF`, otherwise the filename with the type-indicator
suffix appended when the indicator lookup succeeds, and the bare
filename again when it raises (the exception is swallowed by
`except Exception: pass`). -/
def displayName (indicator : String → Except String String) (noF : Bool)
    (filename : String) : String :=
  if noF then filename
  else
    match indicator filename with
    | .ok ind => filename ++ ind
    | .error _ => filename

/-- Embedding of `calculate_file_sizes` (src/python/dustr/__init__.py
lines 66-99): on a successful backend call, each raw entry is stored in
the dict under its display name and the dict is stably sorted by value;
a backend exception yields an empty metric map and a single error entry
under the literal key `"<root>"`, with a `Permission denied: ` or
`Directory not found: ` message for those two exception types and the
bare string form otherwise. -/
def calculate_file_sizes
    (backend : Except BackendExc (List (String × Nat)))
    (indicator : String → Except String String)
    (noF : Bool) : List (String × Nat) × List (String × String) :=
  match backend with
  | .ok raw =>
      let file_sizes := raw.foldl
        (fun acc p => dictInsert acc (displayName indicator noF p.1) p.2) []
      (sortBySize file_sizes, [])
  | .error (.permissionExc msg) =>
      (sortBySize [], [("<root>", "Permission denied: " ++ msg)])
  | .error (.fileNotFoundExc msg) =>
      (sortBySize [], [("<root>", "Directory not found: " ++ msg)])
  | .error (.otherExc msg) =>
      (sortBySize [], [("<root>", msg)])

/-! Helper lemmas shared by the claim theorems. -/

/-- The recursive entry sum equals the sum of the per-entry metrics. -/
theorem entriesMetric_eq_sum (m : UnitMode) (es : List (String × FSEntry)) :
    entriesMetric m es = (es.map (fun p => entryMetric m p.2)).sum := by
  induction es with
  | nil => simp [entriesMetric]
  | cons p rest ih =>
    obtain ⟨n, e⟩ := p
    simp [entriesMetric, ih]

/-- Burying an entry below singleton directories does not change its
BYTES_AS_KB metric, since directories contribute no self-size. -/
theorem bytes_buryAt (d : Nat) (e : FSEntry) :
    entryMetric .BYTES_AS_KB (buryAt d e) = entryMetric .BYTES_AS_KB e := by
  induction d with
  | zero => rfl
  | succ k ih =>
    simp [buryAt, entryMetric, entriesMetric, dirSelfMetric, ih]

/-- Membership in a stable insertion. -/
theorem mem_insertBySize (p q : String × Nat) (d : List (String × Nat)) :
    q ∈ insertBySize p d ↔ q = p ∨ q ∈ d := by
  induction d with
  | nil => simp [insertBySize]
  | cons r rest ih =>
    by_cases h : r.2 ≤ p.2
    · simp [insertBySize, h, ih]
      tauto
    · simp [insertBySize, h]

/-- Membership in the sorting fold. -/
theorem mem_sortBySize_fold (l acc : List (String × Nat)) (q : String × Nat) :
    q ∈ l.foldl (fun a p => insertBySize p a) acc ↔ q ∈ acc ∨ q ∈ l := by
  induction l generalizing acc with
  | nil => simp
  | cons p rest ih =>
    simp only [List.foldl_cons, ih, mem_insertBySize, List.mem_cons]
    tauto

/-- Sorting by size preserves the elements of the association list. -/
theorem mem_sortBySize (d : List (String × Nat)) (q : String × Nat) :
    q ∈ sortBySize d ↔ q ∈ d := by
  simp [sortBySize, mem_sortBySize_fold]

/-- Every element of `dictInsert d k v` either has key `k` or is an
untouched element of `d`. -/
theorem mem_dictInsert (d : List (String × Nat)) (k : String) (v : Nat)
    (q : String × Nat) (h : q ∈ dictInsert d k v) : q.1 = k ∨ q ∈ d := by
  unfold dictInsert at h
  split at h
  · simp only [List.mem_map] at h
    obtain ⟨p, hp, hq⟩ := h
    split at hq
    · left
      simp [← hq]
    · right
      rw [← hq]
      exact hp
  · rcases List.mem_append.mp h with h2 | h2
    · exact Or.inr h2
    · left
      rw [List.mem_singleton.mp h2]

/-- Every element produced by the dict-building fold in
`calculate_file_sizes` either comes from the accumulator or has a
display name of some raw entry as its key. -/
theorem mem_foldl_dict (ind : String → Except String String) (noF : Bool)
    (raw acc : List (String × Nat)) (q : String × Nat)
    (h : q ∈ raw.foldl
      (fun a p => dictInsert a (displayName ind noF p.1) p.2) acc) :
    q ∈ acc ∨ ∃ p ∈ raw, q.1 = displayName ind noF p.1 := by
  induction raw generalizing acc with
  | nil => exact Or.inl h
  | cons p rest ih =>
    simp only [List.foldl_cons] at h
    rcases ih _ h with h2 | h2
    · rcases mem_dictInsert _ _ _ _ h2 with h3 | h3
      · exact Or.inr ⟨p, List.mem_cons_self _ _, h3⟩
      · exact Or.inl h3
    · obtain ⟨r, hr, hk⟩ := h2
      exact Or.inr ⟨r, List.mem_cons_of_mem _ hr, hk⟩

/-! The claim theorems. -/

/-- C1: in INODES mode, the aggregated metric of a directory child
equals 1 (for the directory itself) plus the sum of the metrics of
every entry inside it computed recursively under the same rules, every
symlink contributes exactly 1 regardless of its target, and an empty
directory has metric 1. -/
theorem inodes_dir_metric (es : List (String × FSEntry)) (s : Nat)
    (t : FSEntry) :
    entryMetric .INODES (.dir es)
        = 1 + (es.map (fun p => entryMetric .INODES p.2)).sum
    ∧ entryMetric .INODES (.symlink s t) = 1
    ∧ entryMetric .INODES (.dir []) = 1 := by
  refine ⟨?_, rfl, rfl⟩
  simp [entryMetric, dirSelfMetric, entriesMetric_eq_sum]

/-- C2: in BYTES_AS_KB mode a regular file of byte size S contributes
exactly S / 1024 (truncating division, applied per file before
summation), independent of its depth in the tree; directories
contribute no self-size, so a directory containing only a 100-byte file
has metric 0. -/
theorem bytes_file_metric (S d s1 s2 : Nat) (name a b : String) :
    entryMetric .BYTES_AS_KB (.file S) = S / 1024
    ∧ entryMetric .BYTES_AS_KB (buryAt d (.file S)) = S / 1024
    ∧ entryMetric .BYTES_AS_KB (.dir [(name, .file 100)]) = 0
    ∧ entriesMetric .BYTES_AS_KB [(a, .file s1), (b, .file s2)]
        = s1 / 1024 + s2 / 1024 := by
  refine ⟨rfl, ?_, ?_, ?_⟩
  · rw [bytes_buryAt]
    rfl
  · simp [entryMetric, entriesMetric, dirSelfMetric, leafMetric]
  · simp [entriesMetric, entryMetric, leafMetric]

/-- C3: when the root cannot be opened (missing, not a directory, or
permission denied), aggregate fails as a whole: the metric map is empty
and the error map holds exactly one entry under the root sentinel
key. -/
theorem aggregate_root_failure (r : ScanRoot) (m : UnitMode)
    (h : r.isOk = false) :
    (aggregate r m).1 = []
    ∧ ∃ msg, (aggregate r m).2 = [(rootSentinel, msg)] := by
  cases r with
  | okDir es => simp [ScanRoot.isOk] at h
  | missing => exact ⟨rfl, "Directory not found", rfl⟩
  | notADirectory => exact ⟨rfl, "Not a directory", rfl⟩
  | rootPermissionDenied => exact ⟨rfl, "Permission denied", rfl⟩

/-- C3 witness: a missing root produces an empty metric map and one
root-sentinel error entry. -/
theorem aggregate_root_failure_witness :
    ScanRoot.missing.isOk = false
    ∧ ((aggregate .missing .INODES).1 = []
        ∧ ∃ msg, (aggregate .missing .INODES).2 = [(rootSentinel, msg)]) :=
  ⟨rfl, aggregate_root_failure .missing .INODES rfl⟩

/-- C4: a failed subtree contributes 0 to aggregation; skipping it
leaves siblings untouched; a top-level child with several nested
failures gets exactly one error entry keyed by the child with the
first-seen message, while the child itself is still measured; the
permission-denied cause is distinguished literally; and a directory
with a permission-denied child and a normal file still yields the
file's exact metric, a single error entry keyed by the denied child
with the permission message, and does not fail the whole call. -/
theorem nested_failure_policy (m : UnitMode) (c : FailCause)
    (x y n a b : String) (e1 e2 : FSEntry) (m1 m2 : String) (S : Nat)
    (rest : List (String × FSEntry))
    (h1 : firstError e1 = some m1) (_h2 : firstError e2 = some m2) :
    (entryMetric m (.statFails c) = 0 ∧ entryMetric m (.unlistableDir c) = 0)
    ∧ entriesMetric m ((x, .statFails c) :: rest) = entriesMetric m rest
    ∧ (aggregate (.okDir [(n, .dir [(x, e1), (y, e2)])]) m).2 = [(n, m1)]
    ∧ (aggregate (.okDir [(n, .dir [(x, e1), (y, e2)])]) m).1
        = [(n, entryMetric m (.dir [(x, e1), (y, e2)]))]
    ∧ causeMessage .permissionDenied = "Permission denied"
    ∧ aggregate (.okDir [(a, .unlistableDir .permissionDenied), (b, .file S)]) m
        = ([(b, leafMetric m S)], [(a, "Permission denied")]) := by
  refine ⟨⟨rfl, rfl⟩, ?_, ?_, ?_, rfl, ?_⟩
  · simp [entriesMetric, entryMetric]
  · simp [aggregate, firstError, firstErrorList, h1]
  · simp [aggregate, entryReadable]
  · simp [aggregate, entryReadable, firstError, entryMetric, causeMessage]

/-- C4 witness: the nested-failure policy at a concrete tree with one
vanished entry and one permission-denied entry under a single top-level
child. -/
theorem nested_failure_policy_witness :
    firstError (.statFails .vanished) = some "No such file or directory"
    ∧ firstError (.unlistableDir .permissionDenied) = some "Permission denied"
    ∧ (aggregate (.okDir [("d", .dir
          [("u", .statFails .vanished),
           ("v", .unlistableDir .permissionDenied)])]) .INODES).2
        = [("d", "No such file or directory")] :=
  ⟨rfl, rfl,
    (nested_failure_policy .INODES .vanished "u" "v" "d" "a" "b"
      (.statFails .vanished) (.unlistableDir .permissionDenied)
      "No such file or directory" "Permission denied" 0 [] rfl rfl).2.2.1⟩

/-- C5: a symbolic link is never followed or recursed into: its metric
is independent of its target and equals its own link-metadata leaf
metric, so a symlink to an arbitrarily large directory contributes only
its own link size in kilobytes (byte mode) or 1 (inode mode). -/
theorem symlink_leaf (m : UnitMode) (s : Nat) (t t2 : FSEntry)
    (es : List (String × FSEntry)) :
    entryMetric m (.symlink s t) = entryMetric m (.symlink s t2)
    ∧ entryMetric m (.symlink s t) = leafMetric m s
    ∧ entryMetric .BYTES_AS_KB (.symlink s (.dir es)) = s / 1024
    ∧ entryMetric .INODES (.symlink s (.dir es)) = 1 :=
  ⟨rfl, rfl, rfl, rfl⟩

/-- C6: a successful classification returns exactly one of "", "/",
"@"; a symlink yields "@" even when its target is a directory (the
symlink check takes precedence over the directory check), a directory
yields "/", and a regular file yields "". -/
theorem classify_cases (e : FSEntry) (r : String)
    (es : List (String × FSEntry)) (s n : Nat)
    (h : get_file_type_indicator e = .ok r) :
    (r = "" ∨ r = "/" ∨ r = "@")
    ∧ get_file_type_indicator (.symlink s (.dir es)) = .ok "@"
    ∧ get_file_type_indicator (.dir es) = .ok "/"
    ∧ get_file_type_indicator (.file n) = .ok "" := by
  refine ⟨?_, rfl, rfl, rfl⟩
  cases e <;> simp_all [get_file_type_indicator]

/-- C6 witness: classification of a concrete symlink-to-directory. -/
theorem classify_cases_witness :
    get_file_type_indicator (.symlink 9 (.dir [])) = .ok "@"
    ∧ ("@" = "" ∨ "@" = "/" ∨ "@" = "@") :=
  ⟨rfl, (classify_cases (.symlink 9 (.dir [])) "@" [] 9 0 rfl).1⟩

/-- C7: when the indicator lookup fails for a filename, the exception
is swallowed: the entry is reported under its bare filename with its
metric intact, and no classification error ever reaches the returned
error map (which is empty for every successful backend call). -/
theorem classify_failure_swallowed (ind : String → Except String String)
    (fn msg : String) (sz : Nat) (raw : List (String × Nat)) (noF : Bool)
    (h : ind fn = .error msg) :
    calculate_file_sizes (.ok [(fn, sz)]) ind false = ([(fn, sz)], [])
    ∧ (calculate_file_sizes (.ok raw) ind noF).2 = [] := by
  constructor
  · simp [calculate_file_sizes, displayName, h, dictInsert, sortBySize,
      insertBySize]
  · rfl

/-- C7 witness: a concrete always-failing indicator still yields the
entry under its bare name and an empty error map. -/
theorem classify_failure_swallowed_witness :
    (fun _ : String => (Except.error "No such file or directory"
        : Except String String)) "f" = .error "No such file or directory"
    ∧ (calculate_file_sizes (.ok [("f", 3)])
          (fun _ => .error "No such file or directory") false = ([("f", 3)], [])
        ∧ (calculate_file_sizes (.ok [])
            (fun _ => .error "No such file or directory") false).2 = []) :=
  ⟨rfl, classify_failure_swallowed
      (fun _ => .error "No such file or directory")
      "f" "No such file or directory" 3 [] false rfl⟩

/-- C8: aggregate is deterministic — two invocations on the same
unmodified tree (equal scan roots) under the same mode return identical
metric maps (indeed identical full results). -/
theorem aggregate_deterministic (r1 r2 : ScanRoot) (m : UnitMode)
    (h : r1 = r2) :
    (aggregate r1 m).1 = (aggregate r2 m).1
    ∧ aggregate r1 m = aggregate r2 m := by
  subst h
  exact ⟨rfl, rfl⟩

/-- C8 witness: determinism at a concrete one-file tree. -/
theorem aggregate_deterministic_witness :
    ScanRoot.okDir [("f", FSEntry.file 1)]
        = ScanRoot.okDir [("f", FSEntry.file 1)]
    ∧ ((aggregate (.okDir [("f", .file 1)]) .INODES).1
          = (aggregate (.okDir [("f", .file 1)]) .INODES).1
        ∧ aggregate (.okDir [("f", .file 1)]) .INODES
          = aggregate (.okDir [("f", .file 1)]) .INODES) :=
  ⟨rfl, aggregate_deterministic (.okDir [("f", .file 1)])
      (.okDir [("f", .file 1)]) .INODES rfl⟩

/-- C9: every backend exception is converted into a single error-map
entry under the literal key "<root>" — with a "Permission denied: " or
"Directory not found: " message for those two exception types and the
bare string form otherwise — and the function returns a pair with an
empty metric map instead of propagating the exception. -/
theorem backend_exception_handling (msg : String)
    (ind : String → Except String String) (noF : Bool) :
    calculate_file_sizes (.error (.permissionExc msg)) ind noF
        = ([], [("<root>", "Permission denied: " ++ msg)])
    ∧ calculate_file_sizes (.error (.fileNotFoundExc msg)) ind noF
        = ([], [("<root>", "Directory not found: " ++ msg)])
    ∧ calculate_file_sizes (.error (.otherExc msg)) ind noF
        = ([], [("<root>", msg)]) :=
  ⟨rfl, rfl, rfl⟩

/-- C10: unless indicator display is disabled, every key of the metric
map is a raw child name with its indicator suffix appended (the display
name), the bare name being kept only under the disabled flag or a
failed lookup; consequently two distinct children whose name plus
suffix coincide — a regular file named "x@" and a symlink named "x" —
collapse to a single map entry and only one metric survives. -/
theorem display_name_keys_collapse (ind : String → Except String String)
    (h1 : ind "x@" = .ok "") (h2 : ind "x" = .ok "@") :
    (∀ fn i, ind fn = .ok i → displayName ind false fn = fn ++ i)
    ∧ (∀ fn, displayName ind true fn = fn)
    ∧ (∀ raw k,
        k ∈ ((calculate_file_sizes (.ok raw) ind false).1.map Prod.fst)
        → ∃ p ∈ raw, k = displayName ind false p.1)
    ∧ (calculate_file_sizes (.ok [("x@", 5), ("x", 7)]) ind false).1
        = [("x@", 7)] := by
  refine ⟨?_, ?_, ?_, ?_⟩
  · intro fn i hfn
    simp [displayName, hfn]
  · intro fn
    rfl
  · intro raw k hk
    simp only [calculate_file_sizes, List.mem_map] at hk
    obtain ⟨q, hq, hqk⟩ := hk
    rw [mem_sortBySize] at hq
    rcases mem_foldl_dict ind false raw [] q hq with hin | hin
    · simp at hin
    · obtain ⟨p, hp, hkey⟩ := hin
      exact ⟨p, hp, by rw [← hqk, hkey]⟩
  · simp [calculate_file_sizes, displayName, h1, h2, dictInsert, sortBySize,
      insertBySize]

/-- C10 witness: the concrete collapse of a file named "x@" and a
symlink named "x" into one entry where only the later metric
survives. -/
theorem display_name_keys_collapse_witness :
    ((fun s : String => if s = "x" then (Except.ok "@" : Except String String)
        else .ok "") "x@" = .ok ""
      ∧ (fun s : String => if s = "x" then (Except.ok "@" : Except String String)
        else .ok "") "x" = .ok "@")
    ∧ (calculate_file_sizes (.ok [("x@", 5), ("x", 7)])
        (fun s => if s = "x" then .ok "@" else .ok "") false).1
        = [("x@", 7)] :=
  ⟨⟨by simp, by simp⟩,
   (display_name_keys_collapse
      (fun s => if s = "x" then .ok "@" else .ok "")
      (by simp) (by simp)).2.2.2⟩

end Dustr
